import Mathlib

/-!
Verification of the UniAccess (NVDA-Linux) core subsystems: the input capture
engine (src/input_listener.py) and the AT-SPI accessibility client
(src/atspi_backend.py), against the repository's configuration module
(src/config.py).

The Python source is shallowly embedded: each relevant method becomes a pure
Lean function over explicit state, with every effect the claims mention made
visible in the result type.  Calls into external libraries (evdev, AT-SPI) and
Python exceptions are modelled by an explicit outcome argument of type
`Except Unit _`: `Except.ok` is a normal return, `Except.error ()` is a raised
exception at that call site.  Log emission is modelled as a `Bool` (or a list)
component of the result where a claim talks about logging.
-/

namespace UniAccess

/-! ### Linux input-event codes used by the source (evdev `ecodes`). -/

def EV_KEY : Nat := 1
def KEY_ENTER : Nat := 28
def KEY_LEFTCTRL : Nat := 29
def KEY_A : Nat := 30
def KEY_L : Nat := 38
def KEY_LEFTSHIFT : Nat := 42
def KEY_C : Nat := 46
def KEY_RIGHTSHIFT : Nat := 54
def KEY_LEFTALT : Nat := 56
def KEY_SPACE : Nat := 57
def KEY_RIGHTCTRL : Nat := 97
def KEY_RIGHTALT : Nat := 100
def KEY_LEFTMETA : Nat := 125
def KEY_RIGHTMETA : Nat := 126

/-! ### Key state (src/input_listener.py, class KeyState) -/

/-- Embeds `KeyState.__init__`: pressed keys and modifiers are Python sets of
key codes, `last_key_time` a millisecond timestamp, and the repeat settings
integers with constructor defaults 500 and 30. -/
structure KeyState where
  pressed_keys : Finset Nat
  modifiers : Finset Nat
  last_key_time : Nat
  key_repeat_delay : Int
  key_repeat_rate : Int
deriving DecidableEq

/-- A fresh `KeyState()`: empty sets, zero timestamp, defaults 500 / 30. -/
def KeyState.init : KeyState :=
  { pressed_keys := ∅
    modifiers := ∅
    last_key_time := 0
    key_repeat_delay := 500
    key_repeat_rate := 30 }

/-- The three keystates `evdev.KeyEvent` distinguishes (`categorize` maps raw
values 0 / 1 / 2 to up / down / hold). -/
inductive KeyEventState where
  | key_up
  | key_down
  | key_hold
deriving DecidableEq, Repr

/-- A raw `evdev.InputEvent` as `_handle_key_event` consumes it: the event
type (`event.type`), the key code (`event.code`) and the categorized
keystate. -/
structure InputEvent where
  etype : Nat
  code : Nat
  keystate : KeyEventState
deriving DecidableEq, Repr

/-- Embeds `InputManager._get_modifier_codes`: the fixed set of shift, ctrl,
alt and meta codes. -/
def modifierCodes : Finset Nat :=
  {KEY_LEFTSHIFT, KEY_RIGHTSHIFT,
   KEY_LEFTCTRL, KEY_RIGHTCTRL,
   KEY_LEFTALT, KEY_RIGHTALT,
   KEY_LEFTMETA, KEY_RIGHTMETA}

/-- Observable emissions of one `_handle_key_event` call: an invocation of the
registered modifier handlers (`_trigger_modifier_handlers`, carrying the code
and the pressed flag), an invocation of the registered key handlers
(`_trigger_key_handlers`, carrying the code), or a gesture firing. -/
inductive Emitted where
  | modifier_changed (code : Nat) (pressed : Bool)
  | key_down (code : Nat)
  | gesture (name : String)
deriving DecidableEq, BEq, Repr

/-- Embeds `InputManager._check_gestures`: its body is a placeholder comment
and `pass` — it inspects nothing and emits nothing, whatever gestures were
registered with `register_gesture_handler` and whatever the key state is. -/
def checkGestures (gestures : List String) (state : KeyState) : List Emitted :=
  []

/-- Embeds `InputManager._handle_key_event` for one raw event, with `now`
standing for `time.time() * 1000` at this call.  Statement order follows the
source: on key down the code is added to `pressed_keys`, then (if it is a
modifier code) to `modifiers` with a modifier-handler trigger, then the key
handlers are triggered and `_check_gestures` runs (for every down, modifier or
not), then `last_key_time` is set; on key up the code is discarded from
`pressed_keys` (and from `modifiers`, with a trigger, if it is a modifier
code) and `last_key_time` is reset to 0; holds and non-EV_KEY events change
nothing. -/
def handleKeyEvent (gestures : List String) (now : Nat) (s : KeyState)
    (e : InputEvent) : KeyState × List Emitted :=
  if e.etype = EV_KEY then
    match e.keystate with
    | KeyEventState.key_down =>
        if e.code ∈ modifierCodes then
          let s2 : KeyState :=
            { s with pressed_keys := insert e.code s.pressed_keys
                     modifiers := insert e.code s.modifiers
                     last_key_time := now }
          (s2, [Emitted.modifier_changed e.code true, Emitted.key_down e.code]
                ++ checkGestures gestures s2)
        else
          let s2 : KeyState :=
            { s with pressed_keys := insert e.code s.pressed_keys
                     last_key_time := now }
          (s2, [Emitted.key_down e.code] ++ checkGestures gestures s2)
    | KeyEventState.key_up =>
        if e.code ∈ modifierCodes then
          ({ s with pressed_keys := s.pressed_keys.erase e.code
                    modifiers := s.modifiers.erase e.code
                    last_key_time := 0 },
           [Emitted.modifier_changed e.code false])
        else
          ({ s with pressed_keys := s.pressed_keys.erase e.code
                    last_key_time := 0 },
           [])
    | KeyEventState.key_hold => (s, [])
  else (s, [])

/-- Runs `_handle_key_event` over a timestamped raw event sequence,
concatenating the emissions in order. -/
def processEvents (gestures : List String) (s : KeyState)
    (evs : List (Nat × InputEvent)) : KeyState × List Emitted :=
  match evs with
  | [] => (s, [])
  | (now, e) :: rest =>
      let r1 := handleKeyEvent gestures now s e
      let r2 := processEvents gestures r1.1 rest
      (r2.1, r1.2 ++ r2.2)

/-- The strengthened step invariant: modifiers are pressed, and only modifier
codes ever enter `modifiers`. -/
def KeyInv (s : KeyState) : Prop :=
  s.modifiers ⊆ s.pressed_keys ∧ s.modifiers ⊆ modifierCodes

theorem handleKeyEvent_inv (gestures : List String) (now : Nat) (s : KeyState)
    (e : InputEvent) (h : KeyInv s) : KeyInv (handleKeyEvent gestures now s e).1 := by
  obtain ⟨h1, h2⟩ := h
  unfold handleKeyEvent
  by_cases ht : e.etype = EV_KEY
  · simp only [ht, if_true]
    cases e.keystate with
    | key_down =>
        by_cases hm : e.code ∈ modifierCodes
        · simp only [hm, if_true]
          exact ⟨Finset.insert_subset_insert _ h1,
                 Finset.insert_subset_iff.mpr ⟨hm, h2⟩⟩
        · simp only [hm, if_false]
          exact ⟨h1.trans (Finset.subset_insert _ _), h2⟩
    | key_up =>
        by_cases hm : e.code ∈ modifierCodes
        · simp only [hm, if_true]
          exact ⟨Finset.erase_subset_erase _ h1,
                 (Finset.erase_subset _ _).trans h2⟩
        · simp only [hm, if_false]
          refine ⟨Finset.subset_erase.mpr ⟨h1, fun hc => hm (h2 hc)⟩, h2⟩
    | key_hold => exact ⟨h1, h2⟩
  · simp only [ht, if_false]
    exact ⟨h1, h2⟩

theorem processEvents_inv (gestures : List String) (s : KeyState)
    (evs : List (Nat × InputEvent)) (h : KeyInv s) :
    KeyInv (processEvents gestures s evs).1 := by
  induction evs generalizing s with
  | nil => exact h
  | cons te rest ih =>
      exact ih _ (handleKeyEvent_inv gestures te.1 s te.2 h)

/-- C1: processing any finite raw event sequence through `_handle_key_event`
from a fresh `KeyState` keeps `modifiers ⊆ pressed_keys` after each event
(every prefix of a sequence is itself such a sequence, so the subset relation
holds at every intermediate state). -/
theorem C1_modifiers_subset_pressed (gestures : List String)
    (evs : List (Nat × InputEvent)) :
    (processEvents gestures KeyState.init evs).1.modifiers ⊆
      (processEvents gestures KeyState.init evs).1.pressed_keys :=
  (processEvents_inv gestures KeyState.init evs
    ⟨Finset.empty_subset _, Finset.empty_subset _⟩).1

/-! ### Handler dispatch (src/input_listener.py, `_trigger_key_handlers` and
`_trigger_modifier_handlers`) -/

/-- One registered callback as dispatch sees it: an identifier and whether
calling it raises. -/
structure Handler where
  id : Nat
  raises : Bool
deriving DecidableEq, Repr

/-- Embeds the dispatch loop shared by `_trigger_key_handlers` and
`_trigger_modifier_handlers`: the handlers registered for the event's name are
called in registration order inside a single `try`; a raising handler
propagates out of the `for` loop to the `except`, which logs and returns.
The result is the list of handler ids that were actually called (a raising
handler did run) and whether the `except` block logged an error; the function
being total is the source's `except Exception` never letting the exception
escape the trigger method. -/
def triggerHandlers : List Handler → List Nat × Bool
  | [] => ([], false)
  | h :: rest =>
      if h.raises then ([h.id], true)
      else
        let r := triggerHandlers rest
        (h.id :: r.1, r.2)

/-- C2 counterexample: two handlers registered for the same event, the first
raises.  The claim says the second is still invoked in the same dispatch; in
the code the raise aborts the `for` loop, so handler 1 is never called. -/
theorem C2_counterexample :
    (triggerHandlers [⟨0, true⟩, ⟨1, false⟩]).2 = true ∧
      1 ∉ (triggerHandlers [⟨0, true⟩, ⟨1, false⟩]).1 := by
  decide

/-- C2 amended: when a handler raises during dispatch, the exception is
logged and the dispatch call still returns (the loop never crashes), but the
handlers registered after the first raising one are skipped: exactly the
non-raising prefix and the first raising handler run. -/
theorem C2_first_raise_aborts_dispatch (pre post : List Handler) (h : Handler)
    (hpre : ∀ x ∈ pre, x.raises = false) (hr : h.raises = true) :
    triggerHandlers (pre ++ h :: post) = (pre.map Handler.id ++ [h.id], true) := by
  induction pre with
  | nil => simp [triggerHandlers, hr]
  | cons a rest ih =>
      have ha : a.raises = false := hpre a (List.mem_cons_self a rest)
      have ihr := ih (fun x hx => hpre x (List.mem_cons_of_mem a hx))
      simp [triggerHandlers, ha, ihr]

/-- C2 witness: a concrete dispatch with a non-raising handler, then a raising
one, then one more; exactly handlers 0 and 1 run and the error is logged. -/
theorem C2_witness :
    triggerHandlers [⟨0, false⟩, ⟨1, true⟩, ⟨2, false⟩] = ([0, 1], true) := by
  have h := C2_first_raise_aborts_dispatch [⟨0, false⟩] [⟨2, false⟩] ⟨1, true⟩
    (by decide) (by decide)
  simpa using h

/-! ### Scenario B and gesture behaviour (C3, C4) -/

/-- The raw sequence of Scenario B: down(LeftCtrl), down(C), up(C),
up(LeftCtrl), at times 1..4. -/
def scenarioB : List (Nat × InputEvent) :=
  [(1, ⟨EV_KEY, KEY_LEFTCTRL, KeyEventState.key_down⟩),
   (2, ⟨EV_KEY, KEY_C, KeyEventState.key_down⟩),
   (3, ⟨EV_KEY, KEY_C, KeyEventState.key_up⟩),
   (4, ⟨EV_KEY, KEY_LEFTCTRL, KeyEventState.key_up⟩)]

/-- C3 counterexample: the emissions of Scenario B are not the three events
the claim lists — the down-transition of LeftCtrl also triggers the key
handlers (`_trigger_key_handlers` runs for every key down, modifier or not),
so a key_down(LeftCtrl) emission appears between modifier_changed(LeftCtrl,
true) and key_down(C). -/
theorem C3_counterexample :
    (processEvents [] KeyState.init scenarioB).2 ≠
      [Emitted.modifier_changed KEY_LEFTCTRL true,
       Emitted.key_down KEY_C,
       Emitted.modifier_changed KEY_LEFTCTRL false] := by
  decide

/-- C3 amended: Scenario B emits modifier_changed(LeftCtrl, true),
key_down(LeftCtrl), key_down(C), modifier_changed(LeftCtrl, false) in that
order — a key down of a modifier code triggers both the modifier handlers and
the key handlers — and afterwards `pressed_keys` and `modifiers` are both
empty. -/
theorem C3_scenarioB_trace :
    (processEvents [] KeyState.init scenarioB).2 =
      [Emitted.modifier_changed KEY_LEFTCTRL true,
       Emitted.key_down KEY_LEFTCTRL,
       Emitted.key_down KEY_C,
       Emitted.modifier_changed KEY_LEFTCTRL false] ∧
    (processEvents [] KeyState.init scenarioB).1.pressed_keys = ∅ ∧
    (processEvents [] KeyState.init scenarioB).1.modifiers = ∅ := by
  decide

/-- The raw sequence completing the gesture set of Scenario C: down(LeftCtrl),
down(LeftAlt), down(L). -/
def scenarioC : List (Nat × InputEvent) :=
  [(1, ⟨EV_KEY, KEY_LEFTCTRL, KeyEventState.key_down⟩),
   (2, ⟨EV_KEY, KEY_LEFTALT, KeyEventState.key_down⟩),
   (3, ⟨EV_KEY, KEY_L, KeyEventState.key_down⟩)]

/-- C4 counterexample: with a gesture registered under the name "ctrl_alt_l",
pressing LeftCtrl, LeftAlt and L does not emit the gesture exactly once — it
is emitted zero times, because `_check_gestures` is an empty placeholder. -/
theorem C4_counterexample :
    ¬ ((processEvents ["ctrl_alt_l"] KeyState.init scenarioC).2.count
        (Emitted.gesture "ctrl_alt_l") = 1) := by
  decide

theorem handleKeyEvent_no_gesture (gestures : List String) (now : Nat)
    (s : KeyState) (e : InputEvent) (x : Emitted)
    (hx : x ∈ (handleKeyEvent gestures now s e).2) (name : String) :
    x ≠ Emitted.gesture name := by
  intro hg
  subst hg
  obtain ⟨et, c, ks⟩ := e
  unfold handleKeyEvent at hx
  by_cases ht : et = EV_KEY
  · simp only [ht, if_true] at hx
    cases ks with
    | key_down =>
        by_cases hm : c ∈ modifierCodes
        · simp [hm, checkGestures] at hx
        · simp [hm, checkGestures] at hx
    | key_up =>
        by_cases hm : c ∈ modifierCodes
        · simp [hm] at hx
        · simp [hm] at hx
    | key_hold => simp at hx
  · simp only [ht, if_false, List.not_mem_nil] at hx

/-- C4 amended: gesture checking runs after each key down but its body is a
placeholder (`pass`): no gesture emission ever occurs, for any registered
gesture names, any starting key state and any raw event sequence. -/
theorem C4_gesture_never_fires (gestures : List String) (s : KeyState)
    (evs : List (Nat × InputEvent)) (name : String) :
    Emitted.gesture name ∉ (processEvents gestures s evs).2 := by
  induction evs generalizing s with
  | nil => simp [processEvents]
  | cons te rest ih =>
      simp only [processEvents, List.mem_append]
      rintro (hx | hx)
      · exact handleKeyEvent_no_gesture gestures te.1 s te.2 _ hx name rfl
      · exact ih _ hx

/-! ### AT-SPI query operations (src/atspi_backend.py) -/

/-- An opaque accessible-node handle, as returned by the AT-SPI calls. -/
def Node : Type := Nat

/-- Embeds `AccessibilityManager.get_focused_node`, with the body of the
`try` block abstracted into its outcome: `Except.ok (some n)` is
`Atspi.get_focused()` returning accessible `n` and the `AccessibilityNode`
wrapper being built, `Except.ok none` is `Atspi.get_focused()` returning a
falsy value, `Except.error ()` is any exception inside the block.  The second
component records whether the `except` branch logged. -/
def managerGetFocusedNode (svc : Except Unit (Option Node)) :
    Option Node × Bool :=
  match svc with
  | Except.ok (some n) => (some n, false)
  | Except.ok none => (none, false)
  | Except.error _ => (none, true)

/-- Embeds the module-level `get_focused_node`: when the global
`_accessibility_manager` is still `None` (no `initialize()` call yet, or after
`cleanup()`), it logs and returns `None` without touching the service;
otherwise it delegates to the manager method. -/
def moduleGetFocusedNode (mgr : Option Unit) (svc : Except Unit (Option Node)) :
    Option Node × Bool :=
  match mgr with
  | none => (none, true)
  | some _ => managerGetFocusedNode svc

/-- Embeds `AccessibilityManager.get_node_at_point` for given coordinates:
same try/except shape as the focus query, logging on any exception. -/
def managerGetNodeAtPoint (x y : Int) (svc : Except Unit (Option Node)) :
    Option Node × Bool :=
  match svc with
  | Except.ok (some n) => (some n, false)
  | Except.ok none => (none, false)
  | Except.error _ => (none, true)

/-- Embeds `AccessibilityNode.get_text`: `Except.ok (some t)` is a truthy text
interface whose `get_text(0, -1)` yields `t`, `Except.ok none` a falsy text
interface, `Except.error ()` an exception.  The `except` branch is a bare
`pass` — it does not log, hence the second component is always `false`. -/
def nodeGetText (svc : Except Unit (Option String)) : String × Bool :=
  match svc with
  | Except.ok (some t) => (t, false)
  | Except.ok none => ("", false)
  | Except.error _ => ("", false)

/-- Embeds `AccessibilityNode.get_actions`: the action-name list on success;
the `except` branch returns the empty list without logging. -/
def nodeGetActions (svc : Except Unit (List String)) : List String × Bool :=
  match svc with
  | Except.ok l => (l, false)
  | Except.error _ => ([], false)

/-- C5 counterexample: a failing text extraction returns the empty string but
does not log — `AccessibilityNode.get_text` swallows the exception with a
bare `pass`, so the claim's "and log the condition" is false for the text
query (and likewise for actions, whose handler is a bare `return []`). -/
theorem C5_counterexample :
    nodeGetText (Except.error ()) = ("", false) ∧
      nodeGetActions (Except.error ()) = ([], false) := by
  constructor
  · rfl
  · rfl

/-- C5 amended: no query-style operation lets an exception reach the caller —
each is total and degrades to `none`, the empty string or the empty list on
any service failure, and to `none` when called before the manager exists; the
focus and hit-test queries log the failure, while the text and action queries
swallow it silently. -/
theorem C5_queries_never_raise :
    (∀ u : Unit, managerGetFocusedNode (Except.error u) = (none, true)) ∧
    (∀ svc, moduleGetFocusedNode none svc = (none, true)) ∧
    (∀ x y u, managerGetNodeAtPoint x y (Except.error u) = (none, true)) ∧
    (∀ u, nodeGetText (Except.error u) = ("", false)) ∧
    (∀ u, nodeGetActions (Except.error u) = ([], false)) ∧
    (∀ svc, managerGetFocusedNode svc = (none, true) ∨
      managerGetFocusedNode svc = (none, false) ∨
      ∃ n, managerGetFocusedNode svc = (some n, false)) := by
  refine ⟨fun u => rfl, fun svc => rfl, fun x y u => rfl, fun u => rfl,
    fun u => rfl, fun svc => ?_⟩
  match svc with
  | Except.ok (some n) => exact Or.inr (Or.inr ⟨n, rfl⟩)
  | Except.ok none => exact Or.inr (Or.inl rfl)
  | Except.error _ => exact Or.inl rfl

/-! ### Application listing (src/atspi_backend.py,
`AccessibilityManager.get_application_list`) -/

/-- One entry of the summary dict the listing builds per application. -/
structure AppSummary where
  name : String
  pid : Nat
  role : String
  description : String
deriving DecidableEq, Repr

/-- One child returned by `desktop.get_child_at_index(j)`: whether the handle
is truthy (`if app`), whether `app.get_role()` is `Atspi.Role.APPLICATION`,
and the outcome of building its `AccessibilityNode` and summary fields —
`Except.error ()` when resolving any field (name, pid, role name,
description) raises. -/
structure RawChild where
  present : Bool
  role_is_app : Bool
  resolve : Except Unit AppSummary

/-- The loop body of `get_application_list` over all desktop children, inside
the single `try` that wraps the whole method: a field-resolution exception at
any entry propagates out of the loop. -/
def buildApps : List RawChild → Except Unit (List AppSummary)
  | [] => Except.ok []
  | c :: rest =>
      if c.present && c.role_is_app then
        match c.resolve with
        | Except.error e => Except.error e
        | Except.ok s =>
            match buildApps rest with
            | Except.error e => Except.error e
            | Except.ok l => Except.ok (s :: l)
      else buildApps rest

/-- Embeds `AccessibilityManager.get_application_list`: the whole enumeration
runs in one `try`; any exception reaches the single `except`, which logs and
returns the empty list, discarding entries already collected. -/
def getApplicationList (children : List RawChild) : List AppSummary :=
  match buildApps children with
  | Except.ok l => l
  | Except.error _ => []

/-- Three applications of which exactly the second fails to resolve its
name. -/
def threeApps : List RawChild :=
  [⟨true, true, Except.ok ⟨"editor", 101, "application", ""⟩⟩,
   ⟨true, true, Except.error ()⟩,
   ⟨true, true, Except.ok ⟨"terminal", 103, "application", ""⟩⟩]

/-- C6 counterexample: with three applications of which one fails to resolve
its name, `get_application_list` does not return two summaries — the
exception aborts the single try block around the whole loop and the method
returns the empty list. -/
theorem C6_counterexample : (getApplicationList threeApps).length ≠ 2 := by
  decide

/-- C6 amended: a field-resolution failure on any application entry aborts
the whole listing — `get_application_list` logs and returns the empty list,
not the resolvable entries. -/
theorem C6_failing_entry_aborts_listing (cs : List RawChild)
    (h : ∃ c ∈ cs, c.present = true ∧ c.role_is_app = true ∧
      c.resolve = Except.error ()) :
    getApplicationList cs = [] := by
  suffices hb : buildApps cs = Except.error () by
    simp [getApplicationList, hb]
  induction cs with
  | nil => simp at h
  | cons c rest ih =>
      rcases h with ⟨d, hd, hp, hr, he⟩
      rcases List.mem_cons.mp hd with rfl | hdrest
      · simp [buildApps, hp, hr, he]
      · have hrest := ih ⟨d, hdrest, hp, hr, he⟩
        by_cases hc : c.present && c.role_is_app
        · cases hres : c.resolve with
          | error e => simp [buildApps, hc, hres]
          | ok s => simp [buildApps, hc, hres, hrest]
        · simp [buildApps, hc, hrest]

/-- C6 witness: the amended theorem applied to the concrete three-application
listing. -/
theorem C6_witness : getApplicationList threeApps = [] :=
  C6_failing_entry_aborts_listing threeApps
    ⟨⟨true, true, Except.error ()⟩,
     List.mem_cons_of_mem _ (List.mem_cons_self _ _), rfl, rfl, rfl⟩

/-! ### Event listener registry (src/atspi_backend.py,
`register_event_listener` / `unregister_event_listener`) -/

/-- The `event_listeners` dict: event-type key to ordered callback list,
in insertion order, callbacks as opaque handles. -/
def ListenerMap : Type := List (String × List Nat)

/-- Dict lookup `self.event_listeners[event_type]` /
`event_type in self.event_listeners`. -/
def lookupListeners : ListenerMap → String → Option (List Nat)
  | [], _ => none
  | (k, v) :: rest, et => if k = et then some v else lookupListeners rest et

/-- Dict assignment `self.event_listeners[event_type] = l`: replaces the
value of an existing key in place, or appends a new key at the end. -/
def setListeners : ListenerMap → String → List Nat → ListenerMap
  | [], et, l => [(et, l)]
  | (k, v) :: rest, et, l =>
      if k = et then (et, l) :: rest else (k, v) :: setListeners rest et l

theorem lookupListeners_setListeners (m : ListenerMap) (et : String)
    (l : List Nat) : lookupListeners (setListeners m et l) et = some l := by
  induction m with
  | nil => simp [setListeners, lookupListeners]
  | cons kv rest ih =>
      by_cases hk : kv.1 = et
      · simp [setListeners, lookupListeners, hk]
      · simp [setListeners, lookupListeners, hk, ih]

/-- Embeds `AccessibilityManager.register_event_listener`: the callback is
appended to the (possibly fresh) list for its event type, then
`Atspi.register_keystroke_listener` is attempted; `svcOk` is that call's
outcome (`false` models a raise, caught by the `except` which logs and
returns `False`).  The append has already happened in either case. -/
def registerEventListener (m : ListenerMap) (et : String) (cb : Nat)
    (svcOk : Bool) : ListenerMap × Bool :=
  let cur := (lookupListeners m et).getD []
  (setListeners m et (cur ++ [cb]), svcOk)

/-- Embeds `AccessibilityManager.unregister_event_listener`: only when the
event type is a key and the callback occurs in its list is the first
occurrence removed (`list.remove`) and `Atspi.deregister_keystroke_listener`
attempted (`svcOk` its outcome); otherwise nothing changes and the method
returns `False` without raising. -/
def unregisterEventListener (m : ListenerMap) (et : String) (cb : Nat)
    (svcOk : Bool) : ListenerMap × Bool :=
  match lookupListeners m et with
  | some l =>
      if cb ∈ l then (setListeners m et (l.erase cb), svcOk)
      else (m, false)
  | none => (m, false)

/-- C8: duplicate registration appends two independent entries for the same
callback; each unregister maps the stored list to the removal of the first
matching occurrence only (so at most one entry per call, later duplicates
surviving); and unregistering an absent callback leaves the registry
untouched and returns `False` instead of raising. -/
theorem C8_registry_duplicate_and_removal :
    (∀ (m : ListenerMap) (et : String) (cb : Nat),
      lookupListeners
        ((registerEventListener
            (registerEventListener m et cb true).1 et cb true).1) et =
        some ((lookupListeners m et).getD [] ++ [cb, cb])) ∧
    (∀ (m : ListenerMap) (et : String) (cb : Nat) (svcOk : Bool),
      lookupListeners ((unregisterEventListener m et cb svcOk).1) et =
        (lookupListeners m et).map (fun l => l.erase cb)) ∧
    (∀ (m : ListenerMap) (et : String) (cb : Nat) (svcOk : Bool),
      cb ∉ (lookupListeners m et).getD [] →
        unregisterEventListener m et cb svcOk = (m, false)) := by
  refine ⟨fun m et cb => ?_, fun m et cb svcOk => ?_, fun m et cb svcOk h => ?_⟩
  · simp [registerEventListener, lookupListeners_setListeners]
  · unfold unregisterEventListener
    cases hl : lookupListeners m et with
    | none => simp [hl]
    | some l =>
        by_cases hc : cb ∈ l
        · simp [hc, lookupListeners_setListeners]
        · simp [hc, hl, List.erase_of_not_mem hc]
  · unfold unregisterEventListener
    cases hl : lookupListeners m et with
    | none => simp
    | some l =>
        rw [hl] at h
        simp only [Option.getD_some] at h
        simp [h]

/-- C8 witness: on the concrete registry with "focus" mapped to [7], callback
9 is absent, so unregistering it is a no-op returning `False`. -/
theorem C8_witness :
    unregisterEventListener [("focus", [7])] "focus" 9 true =
      ([("focus", [7])], false) :=
  C8_registry_duplicate_and_removal.2.2 [("focus", [7])] "focus" 9 true
    (by decide)

/-- C10: registration is not atomic on failure — the callback is appended to
the listener map before the keystroke registration is attempted, so when that
service call raises, the method returns `False` yet the callback is stored
under its event type (visible to later unregister and cleanup passes over the
map). -/
theorem C10_register_not_atomic (m : ListenerMap) (et : String) (cb : Nat) :
    (registerEventListener m et cb false).2 = false ∧
      cb ∈ (lookupListeners ((registerEventListener m et cb false).1) et).getD
        [] := by
  constructor
  · rfl
  · simp [registerEventListener, lookupListeners_setListeners]

/-! ### Configuration module (src/config.py) and input-capture startup
(src/input_listener.py, `InputManager.initialize`) -/

/-- A Python configuration value: string, int, bool or nested dict. -/
inductive PyValue where
  | pystr (s : String)
  | pyint (n : Int)
  | pybool (b : Bool)
  | pydict (entries : List (String × PyValue))

/-- The module-level CONFIG dict of src/config.py. -/
def CONFIG : PyValue :=
  PyValue.pydict
    [("voix", PyValue.pydict
        [("moteur", PyValue.pystr "espeak"),
         ("langue", PyValue.pystr "fr"),
         ("vitesse", PyValue.pyint 180),
         ("volume", PyValue.pyint 100),
         ("personnalisation", PyValue.pybool true)]),
     ("braille", PyValue.pydict
        [("afficheur", PyValue.pystr "brltty"),
         ("traduction_temps_reel", PyValue.pybool true),
         ("paramètres", PyValue.pydict [])]),
     ("haptique", PyValue.pydict
        [("contrôleur", PyValue.pystr "default"),
         ("retour_personnalisé", PyValue.pybool true)]),
     ("audio_spatial", PyValue.pydict
        [("casque", PyValue.pystr "default"),
         ("calibration", PyValue.pybool true)]),
     ("ia", PyValue.pydict
        [("reconnaissance_image", PyValue.pybool true),
         ("ocr", PyValue.pybool true),
         ("description_interface", PyValue.pybool true),
         ("navigation_contextuelle", PyValue.pybool true)]),
     ("plateformes", PyValue.pydict
        [("linux", PyValue.pybool true),
         ("windows", PyValue.pybool true),
         ("android", PyValue.pybool true),
         ("console", PyValue.pybool true)])]

/-- A call to the function `get_config` of src/config.py, whose definition is
`def get_config(): return CONFIG` — it declares no parameters.  A call that
passes `nargs` positional arguments therefore returns CONFIG when `nargs = 0`
and raises `TypeError` otherwise; the call sites in src/input_listener.py and
src/atspi_backend.py pass three arguments (section, key, default). -/
def callGetConfig (nargs : Nat) : Except Unit PyValue :=
  if nargs = 0 then Except.ok CONFIG else Except.error ()

/-- The Python conversion `int(x)`: succeeds on ints, bools and numeric
strings; raises on a dict. -/
def pyToInt : PyValue → Except Unit Int
  | PyValue.pyint n => Except.ok n
  | PyValue.pybool b => Except.ok (if b then 1 else 0)
  | PyValue.pystr s =>
      match s.toInt? with
      | some n => Except.ok n
      | none => Except.error ()
  | PyValue.pydict _ => Except.error ()

/-- An opened evdev input device: its name and the outcome of
`device.capabilities()` — a map from event type to supported key codes, or a
raise. -/
structure Device where
  name : String
  capabilities : Except Unit (List (Nat × List Nat))

/-- Embeds `InputManager._is_keyboard_device`: true iff `capabilities()`
succeeds, reports the EV_KEY event type, and at least one probe code among
KEY_A, KEY_SPACE, KEY_ENTER appears under EV_KEY; any exception yields
false. -/
def isKeyboardDevice (d : Device) : Bool :=
  match d.capabilities with
  | Except.error _ => false
  | Except.ok caps =>
      match caps.lookup EV_KEY with
      | none => false
      | some keys => [KEY_A, KEY_SPACE, KEY_ENTER].any (fun c => keys.contains c)

/-- The device loop of `InputManager.initialize`: each enumerated path is
opened (`Except.error ()` models `evdev.InputDevice(path)` raising, which is
logged and skipped) and kept exactly when `_is_keyboard_device` accepts
it. -/
def scanKeyboards : List (Except Unit Device) → List Device
  | [] => []
  | Except.error _ :: rest => scanKeyboards rest
  | Except.ok d :: rest =>
      if isKeyboardDevice d then d :: scanKeyboards rest else scanKeyboards rest

/-- Embeds the method named initialize on InputManager, over the outcomes of
opening each enumerated device path.  It first evaluates
`int(config.get_config('keyboard', 'key_repeat_delay', 500))` and then the
same for `'key_repeat_rate'` with default 30 — three-argument calls modelled
by `callGetConfig 3` composed with `pyToInt`; an exception there propagates
to the outer `except`, which logs and returns `False` with no devices
collected.  Only if both lookups succeed does the device scan run, after
which the method fails exactly when the keyboard list is empty.  The result
is (return value, key state, collected devices). -/
def inputInit (openOutcomes : List (Except Unit Device)) (st : KeyState) :
    Bool × KeyState × List Device :=
  match (callGetConfig 3).bind pyToInt with
  | Except.error _ => (false, st, [])
  | Except.ok d1 =>
      match (callGetConfig 3).bind pyToInt with
      | Except.error _ => (false, { st with key_repeat_delay := d1 }, [])
      | Except.ok d2 =>
          let st1 : KeyState :=
            { st with key_repeat_delay := d1, key_repeat_rate := d2 }
          let devs := scanKeyboards openOutcomes
          if devs.isEmpty then (false, st1, devs) else (true, st1, devs)

/-- A keyboard-capable device: EV_KEY with all three probe codes. -/
def kbdDevice : Device :=
  ⟨"kbd0", Except.ok [(EV_KEY, [KEY_A, KEY_SPACE, KEY_ENTER])]⟩

/-- C7, evaluated at the failing input: a device list containing one keyboard
(classified as such by `_is_keyboard_device`) on which `initialize` still
returns `False` — the three-argument `get_config` call raises `TypeError`
before the device scan, so zero-keyboards is not the only failure
condition. -/
theorem C7_keyboard_present_still_fails :
    isKeyboardDevice kbdDevice = true ∧
      (inputInit [Except.ok kbdDevice] KeyState.init).1 = false :=
  ⟨rfl, rfl⟩

/-- C9, evaluated at the failing input: with no explicit configuration, the
very first configuration lookup of `initialize` raises (`get_config` takes no
parameters but is passed three), so initialization returns `False` instead of
proceeding; the key state keeps its constructor defaults 500 / 30 only
because the assignments are never reached. -/
theorem C9_config_lookup_raises :
    callGetConfig 3 = Except.error () ∧
      inputInit [Except.ok kbdDevice] KeyState.init =
        (false, KeyState.init, []) ∧
      KeyState.init.key_repeat_delay = 500 ∧
      KeyState.init.key_repeat_rate = 30 :=
  ⟨rfl, rfl, rfl, rfl⟩

end UniAccess
